import Mathlib

set_option maxHeartbeats 1000000

/-!
Verification development for the LuminLogger repository.

The repository's only source file is `src/conanfile.py`, a Conan build recipe for a
package named "lumin-logger".  The first part of this file embeds that recipe: its
declared class attributes and the behaviour of its `requirements`, `config_options`,
`build` and `package_info` methods, together with the literal line content of the file.

The logging core that the recipe packages (LogField, Record, Formatter, Sink, Logger,
Registry) is not present in the repository; only its packaging is.  The second part
models that core from the specification's data model and algorithms, and the theorems
settle the specification's claims about it against the model.
-/

/-- Embedding of the class attributes declared by `LuminLoggerConan` in
`src/conanfile.py` (name, version, license, author, url, description, topics,
settings, options, default_options, exports_sources). -/
structure ConanRecipe where
  name : String
  version : String
  license : String
  author : String
  url : String
  description : String
  topics : List String
  settings : List String
  options : List String
  default_options : List (String × Bool)
  exports_sources : List String

/-- The recipe value declared in `src/conanfile.py`, lines 6-32. -/
def luminLoggerConan : ConanRecipe :=
  { name := "lumin-logger"
    version := "1.0.0"
    license := "MIT"
    author := "Lumin Team <info@lumin.dev>"
    url := "https://github.com/lumin/logger"
    description := "A modern C++ logging library"
    topics := ["logging", "c++", "spdlog", "json"]
    settings := ["os", "compiler", "build_type", "arch"]
    options := ["shared", "fPIC", "build_examples", "build_tests"]
    default_options :=
      [("shared", false), ("fPIC", true), ("build_examples", false),
       ("build_tests", false), ("spdlog/*:header_only", true)]
    exports_sources :=
      ["CMakeLists.txt", "LICENSE", "README.md", "CHANGELOG.md",
       "include/*", "src/*", "cmake/*", "examples/*", "tests/*"] }

/-- The `self.requires(...)` calls performed by `requirements()` in
`src/conanfile.py`, lines 34-36, in order. -/
def requirements : List String :=
  ["spdlog/1.12.0", "nlohmann_json/3.11.3"]

/-- Embedding of the `cpp_info` data set by `package_info()`. -/
structure CppInfo where
  libs : List String
  cmake_file_name : String
  cmake_target_name : String
  requires : List String

/-- The `cpp_info` produced by `package_info()` in `src/conanfile.py`, lines 63-67. -/
def package_info : CppInfo :=
  { libs := ["lumin_logger"]
    cmake_file_name := "lumin-logger"
    cmake_target_name := "lumin::logger"
    requires := ["spdlog::spdlog", "nlohmann_json::nlohmann_json"] }

/-- `config_options()` of `src/conanfile.py`, lines 38-40: given the configured
operating system, the recipe's option set after the method runs (`del
self.options.fPIC` exactly when the os is Windows). -/
def config_options (os : String) : List String :=
  if os = "Windows" then luminLoggerConan.options.erase "fPIC"
  else luminLoggerConan.options

/-- The CMake driver calls a `build()` run can make. -/
inductive CMakeAction where
  | configure
  | build
  | test
deriving DecidableEq

/-- `build()` of `src/conanfile.py`, lines 51-56: the sequence of CMake driver calls,
as a function of the `build_tests` option. -/
def build (build_tests : Bool) : List CMakeAction :=
  [CMakeAction.configure, CMakeAction.build] ++
    (if build_tests then [CMakeAction.test] else [])

/-- The literal lines of text of `src/conanfile.py`.  The file ends without a
trailing newline, so its final line (67) is unterminated; the file contains 66
newline characters. -/
def conanfileLines : List String :=
  [ "from conan import ConanFile",
    "from conan.tools.cmake import CMake, CMakeToolchain, cmake_layout",
    "from conan.tools.files import copy",
    "import os",
    "",
    "class LuminLoggerConan(ConanFile):",
    "    name = \"lumin-logger\"",
    "    version = \"1.0.0\"",
    "    license = \"MIT\"",
    "    author = \"Lumin Team <info@lumin.dev>\"",
    "    url = \"https://github.com/lumin/logger\"",
    "    description = \"A modern C++ logging library\"",
    "    topics = (\"logging\", \"c++\", \"spdlog\", \"json\")",
    "    settings = \"os\", \"compiler\", \"build_type\", \"arch\"",
    "    options = \x7b",
    "        \"shared\": [True, False],",
    "        \"fPIC\": [True, False],",
    "        \"build_examples\": [True, False],",
    "        \"build_tests\": [True, False]",
    "    \x7d",
    "    default_options = \x7b",
    "        \"shared\": False,",
    "        \"fPIC\": True,",
    "        \"build_examples\": False,",
    "        \"build_tests\": False,",
    "        \"spdlog/*:header_only\": True",
    "    \x7d",
    "    ",
    "    exports_sources = (",
    "        \"CMakeLists.txt\", \"LICENSE\", \"README.md\", \"CHANGELOG.md\",",
    "        \"include/*\", \"src/*\", \"cmake/*\", \"examples/*\", \"tests/*\"",
    "    )",
    "    ",
    "    def requirements(self):",
    "        self.requires(\"spdlog/1.12.0\")",
    "        self.requires(\"nlohmann_json/3.11.3\")",
    "    ",
    "    def config_options(self):",
    "        if self.settings.os == \"Windows\":",
    "            del self.options.fPIC",
    "    ",
    "    def layout(self):",
    "        cmake_layout(self)",
    "    ",
    "    def generate(self):",
    "        tc = CMakeToolchain(self)",
    "        tc.variables[\"LUMIN_LOGGER_BUILD_EXAMPLES\"] = self.options.build_examples",
    "        tc.variables[\"LUMIN_LOGGER_BUILD_TESTS\"] = self.options.build_tests",
    "        tc.generate()",
    "    ",
    "    def build(self):",
    "        cmake = CMake(self)",
    "        cmake.configure()",
    "        cmake.build()",
    "        if self.options.build_tests:",
    "            cmake.test()",
    "    ",
    "    def package(self):",
    "        cmake = CMake(self)",
    "        cmake.install()",
    "        copy(self, \"LICENSE\", self.source_folder, os.path.join(self.package_folder, \"licenses\"))",
    "    ",
    "    def package_info(self):",
    "        self.cpp_info.libs = [\"lumin_logger\"]",
    "        self.cpp_info.set_property(\"cmake_file_name\", \"lumin-logger\")",
    "        self.cpp_info.set_property(\"cmake_target_name\", \"lumin::logger\")",
    "        self.cpp_info.requires = [\"spdlog::spdlog\", \"nlohmann_json::nlohmann_json\"]" ]

/-- Modelled from the spec: the log-severity enum of the record model (spec section 3);
the C++ logging core itself is not under src, only its Conan packaging is. -/
inductive Level where
  | trace
  | debug
  | info
  | warn
  | error
  | critical
deriving DecidableEq

/-- Modelled from the spec: the integer severity used for the single-integer-comparison
fast path of section 4.3. -/
def Level.toNat : Level → Nat
  | .trace => 0
  | .debug => 1
  | .info => 2
  | .warn => 3
  | .error => 4
  | .critical => 5

/-- Modelled from the spec: the LogField value variant of section 3 (string, integer,
boolean, null, nested object of fields, array of values); the floating-point
alternative of the variant is not modelled. -/
inductive Value where
  | str : String → Value
  | intVal : Int → Value
  | boolVal : Bool → Value
  | null : Value
  | obj : List (String × Value) → Value
  | arr : List Value → Value

/-- Modelled from the spec: a LogField is a single typed key/value pair attachable to a
log record (section 3). -/
structure LogField where
  key : String
  value : Value

/-- Modelled from the spec: the error taxonomy of section 7. -/
inductive LogError where
  | invalidFieldKey
  | encodingError
  | ioError
deriving DecidableEq

/-- Modelled from the spec: LogField construction from a key and a value, which never
fails except on the empty key, where it fails with InvalidFieldKey and produces
nothing else (sections 4.1 and 7). -/
def mkField (key : String) (v : Value) : Except LogError LogField :=
  if key = "" then Except.error LogError.invalidFieldKey
  else Except.ok ⟨key, v⟩

/-- The keys of a field set, in order. -/
def fieldKeys (fs : List LogField) : List String :=
  fs.map LogField.key

/-- The value bound to a key in a field set (first field whose key matches), the
mapping view of a record's field set. -/
def findField (fs : List LogField) (k : String) : Option Value :=
  (fs.find? fun f => f.key == k).map LogField.value

/-- Modelled from the spec: merging one LogField into a field set — a later LogField with a
duplicate key overwrites the earlier one, otherwise it is appended (section 3
invariant). -/
def insertField : List LogField → LogField → List LogField
  | [], f => [f]
  | g :: rest, f => if g.key = f.key then f :: rest else g :: insertField rest f

/-- Modelled from the spec: Record construction merges context Fields first and
call-site Fields last, later wins (sections 3 and 4.1). -/
def mergeFields (ctx callsite : List LogField) : List LogField :=
  (ctx ++ callsite).foldl insertField []

/-- Modelled from the spec: one log event — timestamp, level, message, merged field
sequence (section 3); the optional source location is not needed by any claim. -/
structure Record where
  timestamp : Nat
  level : Level
  message : String
  fields : List LogField

/-- Modelled from the spec: a Formatter is a pure function from a Record to rendered
text (sections 2 and 4.2). -/
abbrev Formatter := Record → String

/-- Modelled from the spec: a Sink is a destination capability
`write(rendered) -> Result<(), IoError>` (sections 3 and 6); Sink identity is
modelled by `id`, and the success or failure of a write by the `writeOk`
predicate on the rendered text. -/
structure Sink where
  id : Nat
  writeOk : String → Bool

/-- Modelled from the spec: a Logger holds a name, a minimum level, an ordered
sequence of (Sink, Formatter) pairs and persistent context Fields (section 3). -/
structure Logger where
  name : String
  minLevel : Level
  sinks : List (Sink × Formatter)
  context : List LogField

/-- Modelled from the spec: the observable outcome of one `log` call — the Record
built (if any), the write each Sink received in registration order, and the
IoErrors recorded on the internal fallback path (sections 4.3 and 7).  The
caller-facing result carries no error channel: IoErrors are only recorded. -/
structure LogResult where
  recordBuilt : Option Record
  writes : List (Nat × String)
  ioErrorsRecorded : List Nat

/-- Modelled from the spec: one step of in-order sink dispatch — render, write, record
a failed write internally, and continue (section 4.3 step 3). -/
def dispatchStep (r : Record) (acc : List (Nat × String) × List Nat)
    (p : Sink × Formatter) : List (Nat × String) × List Nat :=
  let rendered := p.2 r
  (acc.1 ++ [(p.1.id, rendered)],
   if p.1.writeOk rendered then acc.2 else acc.2 ++ [p.1.id])

/-- Modelled from the spec: `Logger.log(level, message, fields...)` (section 4.3) —
if the level is strictly below the minimum level, return at once with no Record
built and no writes; otherwise build the Record (merging context then call-site
Fields) and dispatch it to every attached (Sink, Formatter) pair in order. -/
def Logger.log (lg : Logger) (ts : Nat) (lv : Level) (msg : String)
    (callsite : List LogField) : LogResult :=
  if lv.toNat < lg.minLevel.toNat then
    { recordBuilt := none, writes := [], ioErrorsRecorded := [] }
  else
    let r : Record :=
      { timestamp := ts, level := lv, message := msg,
        fields := mergeFields lg.context callsite }
    let out := lg.sinks.foldl (dispatchStep r) ([], [])
    { recordBuilt := some r, writes := out.1, ioErrorsRecorded := out.2 }

/-- Modelled from the spec: `with_context(field)` returns a new child Logger sharing
the parent's Sinks with an extended context-field set; the parent value is not
touched (section 4.4). -/
def Logger.with_context (lg : Logger) (f : LogField) : Logger :=
  { lg with context := insertField lg.context f }

/-- Modelled from the spec: the process-wide table of named Loggers together with its
explicit lifecycle state (sections 3, 4.5 and 9). -/
structure Registry where
  loggers : List (String × Logger)
  isShutdown : Bool

/-- Accumulating deduplication keeping first occurrences, used to deduplicate Sinks
shared across Loggers by identity. -/
def collectIds (acc : List Nat) : List Nat → List Nat
  | [] => acc
  | x :: xs => collectIds (if x ∈ acc then acc else acc ++ [x]) xs

/-- Modelled from the spec: the identities of the Sinks reachable from any registered
Logger, deduplicated by Sink identity (section 4.5). -/
def Registry.reachableSinkIds (rg : Registry) : List Nat :=
  collectIds [] ((rg.loggers.map fun p => p.2.sinks.map fun q => q.1.id).flatten)

/-- Modelled from the spec: the outcome of one `shutdown()` call — which Sink
identities were flushed and closed, the Registry state afterwards, and the error
the call reports to its caller (sections 4.5, 7 and 8). -/
structure ShutdownResult where
  flushedIds : List Nat
  closedIds : List Nat
  after : Registry
  reportedError : Option LogError

/-- Modelled from the spec: `shutdown()` flushes and closes every Sink reachable from
any registered Logger exactly once, deduplicated by Sink identity, and is
idempotent — once shut down, a further call does nothing and reports no error
(sections 4.5 and 8). -/
def Registry.shutdown (rg : Registry) : ShutdownResult :=
  if rg.isShutdown then
    { flushedIds := [], closedIds := [], after := rg, reportedError := none }
  else
    { flushedIds := rg.reachableSinkIds, closedIds := rg.reachableSinkIds,
      after := { rg with isShutdown := true }, reportedError := none }

/-- C1: the recipe declares a package named lumin-logger whose declared dependencies
are exactly spdlog/1.12.0 and nlohmann_json/3.11.3, and package_info re-exports both
as component requirements. -/
theorem c1_declared_dependencies :
    luminLoggerConan.name = "lumin-logger" ∧
    requirements = ["spdlog/1.12.0", "nlohmann_json/3.11.3"] ∧
    package_info.requires = ["spdlog::spdlog", "nlohmann_json::nlohmann_json"] :=
  ⟨rfl, rfl, rfl⟩

/-- C8 counterexample: the recipe declares the topic c++ as well, so the declared
topics are not exactly (logging, spdlog, json), neither as a tuple nor as a set. -/
theorem c8_topics_counterexample :
    "c++" ∈ luminLoggerConan.topics ∧
    "c++" ∉ (["logging", "spdlog", "json"] : List String) ∧
    luminLoggerConan.topics ≠ ["logging", "spdlog", "json"] := by
  decide

/-- C8 amended: the package's stated topic set is exactly
(logging, c++, spdlog, json). -/
theorem c8_declared_topics :
    luminLoggerConan.topics = ["logging", "c++", "spdlog", "json"] :=
  rfl

/-- C9 counterexample: the repository's only file, src/conanfile.py, consists of 67
visible lines of text (its final line is unterminated), not 66. -/
theorem c9_line_count_counterexample : conanfileLines.length ≠ 66 := by
  decide

/-- C9 amended: the repository's total visible line count is 67 lines (the file ends
without a trailing newline, so it contains 66 newline characters), all of it
packaging code. -/
theorem c9_line_count : conanfileLines.length = 67 := by
  decide

/-- C10: config_options deletes the fPIC option exactly when the operating system is
Windows and leaves the option set (shared, fPIC, build_examples, build_tests)
unchanged otherwise, and build always runs cmake.configure() then cmake.build(),
running cmake.test() if and only if build_tests is true. -/
theorem c10_config_options_and_build (os : String) (build_tests : Bool) :
    (os = "Windows" →
      config_options os = ["shared", "build_examples", "build_tests"]) ∧
    (os ≠ "Windows" →
      config_options os = ["shared", "fPIC", "build_examples", "build_tests"]) ∧
    ("fPIC" ∈ config_options os ↔ os ≠ "Windows") ∧
    (build build_tests).take 2 = [CMakeAction.configure, CMakeAction.build] ∧
    (CMakeAction.test ∈ build build_tests ↔ build_tests = true) := by
  refine ⟨fun h => ?_, fun h => ?_, ?_, ?_, ?_⟩
  · simp [config_options, h, luminLoggerConan, List.erase]
  · simp [config_options, h, luminLoggerConan]
  · by_cases h : os = "Windows" <;>
      simp [config_options, h, luminLoggerConan, List.erase]
  · cases build_tests <;> rfl
  · cases build_tests <;> simp [build]

/-- C10 witness: on Linux the option set is unchanged, and with build_tests enabled
the build runs configure, build, then test. -/
theorem c10_config_options_and_build_witness :
    config_options "Linux" = ["shared", "fPIC", "build_examples", "build_tests"] ∧
    CMakeAction.test ∈ build true :=
  ⟨(c10_config_options_and_build "Linux" true).2.1 (by decide),
   (c10_config_options_and_build "Linux" true).2.2.2.2.mpr rfl⟩

theorem fieldKeys_cons (f : LogField) (fs : List LogField) :
    fieldKeys (f :: fs) = f.key :: fieldKeys fs :=
  rfl

theorem mem_fieldKeys (fs : List LogField) (k : String) :
    k ∈ fieldKeys fs ↔ ∃ f ∈ fs, f.key = k := by
  simp [fieldKeys, List.mem_map]

theorem fieldKeys_insertField_of_mem (acc : List LogField) (f : LogField)
    (h : f.key ∈ fieldKeys acc) :
    fieldKeys (insertField acc f) = fieldKeys acc := by
  induction acc with
  | nil => simp [fieldKeys] at h
  | cons g rest ih =>
    by_cases hg : g.key = f.key
    · simp [insertField, hg, fieldKeys_cons]
    · have h' : f.key ∈ fieldKeys rest := by
        rcases (by simpa [fieldKeys_cons] using h : f.key = g.key ∨ f.key ∈ fieldKeys rest)
          with h1 | h1
        · exact absurd h1.symm hg
        · exact h1
      simp [insertField, hg, fieldKeys_cons, ih h']

theorem fieldKeys_insertField_of_not_mem (acc : List LogField) (f : LogField)
    (h : f.key ∉ fieldKeys acc) :
    fieldKeys (insertField acc f) = fieldKeys acc ++ [f.key] := by
  induction acc with
  | nil => simp [insertField, fieldKeys]
  | cons g rest ih =>
    have hg : ¬ g.key = f.key := fun e => h (by simp [fieldKeys_cons, e])
    have h' : f.key ∉ fieldKeys rest := fun m => h (by simp [fieldKeys_cons, m])
    simp [insertField, hg, fieldKeys_cons, ih h']

theorem nodup_fieldKeys_insertField (acc : List LogField) (f : LogField)
    (h : (fieldKeys acc).Nodup) : (fieldKeys (insertField acc f)).Nodup := by
  by_cases hm : f.key ∈ fieldKeys acc
  · rw [fieldKeys_insertField_of_mem acc f hm]; exact h
  · rw [fieldKeys_insertField_of_not_mem acc f hm]
    simp [List.nodup_append, h, hm]

theorem nodup_fieldKeys_foldl (l : List LogField) (acc : List LogField)
    (h : (fieldKeys acc).Nodup) : (fieldKeys (l.foldl insertField acc)).Nodup := by
  induction l generalizing acc with
  | nil => simpa using h
  | cons f rest ih =>
    rw [List.foldl_cons]
    exact ih _ (nodup_fieldKeys_insertField acc f h)

theorem nodup_fieldKeys_mergeFields (ctx callsite : List LogField) :
    (fieldKeys (mergeFields ctx callsite)).Nodup := by
  unfold mergeFields
  exact nodup_fieldKeys_foldl _ _ (by simp [fieldKeys])

theorem findField_cons (g : LogField) (fs : List LogField) (k : String) :
    findField (g :: fs) k = if g.key = k then some g.value else findField fs k := by
  simp only [findField, List.find?]
  by_cases h : g.key = k
  · simp [h]
  · have hb : (g.key == k) = false := beq_eq_false_iff_ne.mpr h
    simp [hb, h]

theorem findField_insertField_self (acc : List LogField) (f : LogField) :
    findField (insertField acc f) f.key = some f.value := by
  induction acc with
  | nil => simp [insertField, findField_cons]
  | cons g rest ih =>
    by_cases hg : g.key = f.key
    · rw [insertField, if_pos hg, findField_cons, if_pos rfl]
    · rw [insertField, if_neg hg, findField_cons, if_neg hg, ih]

theorem findField_insertField_ne (acc : List LogField) (f : LogField) (k : String)
    (h : k ≠ f.key) : findField (insertField acc f) k = findField acc k := by
  induction acc with
  | nil =>
    rw [insertField, findField_cons, if_neg fun e => h e.symm]
  | cons g rest ih =>
    by_cases hg : g.key = f.key
    · rw [insertField, if_pos hg, findField_cons, if_neg fun e => h e.symm,
        findField_cons, if_neg fun e => h ((hg.symm.trans e).symm)]
    · rw [insertField, if_neg hg, findField_cons, findField_cons, ih]

theorem findField_foldl_of_forall_ne (l acc : List LogField) (k : String)
    (h : ∀ g ∈ l, g.key ≠ k) :
    findField (l.foldl insertField acc) k = findField acc k := by
  induction l generalizing acc with
  | nil => rfl
  | cons f rest ih =>
    rw [List.foldl_cons, ih _ fun g hg => h g (List.mem_cons_of_mem _ hg),
      findField_insertField_ne acc f k (h f (List.mem_cons_self f rest)).symm]

theorem findField_mergeFields_callsite (ctx callsite : List LogField) (f : LogField)
    (hnd : (fieldKeys callsite).Nodup) (hf : f ∈ callsite) :
    findField (mergeFields ctx callsite) f.key = some f.value := by
  obtain ⟨s, t, rfl⟩ := List.append_of_mem hf
  have ht : ∀ g ∈ t, g.key ≠ f.key := by
    have hsplit : (fieldKeys s ++ f.key :: fieldKeys t).Nodup := by
      simpa [fieldKeys, List.map_append] using hnd
    have h2 : (f.key :: fieldKeys t).Nodup := (List.nodup_append.mp hsplit).2.1
    have h3 : f.key ∉ fieldKeys t := (List.nodup_cons.mp h2).1
    intro g hg e
    exact h3 ((mem_fieldKeys t f.key).mpr ⟨g, hg, e⟩)
  unfold mergeFields
  rw [← List.append_assoc, List.foldl_append, List.foldl_cons,
    findField_foldl_of_forall_ne t _ f.key ht]
  exact findField_insertField_self _ f

theorem findField_mergeFields_of_not_mem (ctx callsite : List LogField) (k : String)
    (hkc : k ∉ fieldKeys ctx) (hks : k ∉ fieldKeys callsite) :
    findField (mergeFields ctx callsite) k = none := by
  have hall : ∀ g ∈ ctx ++ callsite, g.key ≠ k := by
    intro g hg e
    rcases List.mem_append.mp hg with h1 | h1
    · exact hkc ((mem_fieldKeys _ _).mpr ⟨g, h1, e⟩)
    · exact hks ((mem_fieldKeys _ _).mpr ⟨g, h1, e⟩)
  unfold mergeFields
  rw [findField_foldl_of_forall_ne _ _ _ hall]
  rfl

theorem dispatch_foldl_writes (r : Record) (sinks : List (Sink × Formatter))
    (acc : List (Nat × String) × List Nat) :
    (sinks.foldl (dispatchStep r) acc).1 =
      acc.1 ++ sinks.map fun p => (p.1.id, p.2 r) := by
  induction sinks generalizing acc with
  | nil => simp
  | cons p rest ih =>
    rw [List.foldl_cons, ih]
    simp [dispatchStep, List.append_assoc]

theorem dispatch_foldl_errors (r : Record) (sinks : List (Sink × Formatter))
    (acc : List (Nat × String) × List Nat) :
    (sinks.foldl (dispatchStep r) acc).2 =
      acc.2 ++ (sinks.filter fun p => ! p.1.writeOk (p.2 r)).map fun p => p.1.id := by
  induction sinks generalizing acc with
  | nil => simp
  | cons p rest ih =>
    rw [List.foldl_cons, ih]
    by_cases h : p.1.writeOk (p.2 r)
    · simp [dispatchStep, h, List.filter_cons]
    · simp [dispatchStep, h, List.filter_cons, List.append_assoc]

theorem mem_collectIds (l acc : List Nat) (i : Nat) :
    i ∈ collectIds acc l ↔ i ∈ acc ∨ i ∈ l := by
  induction l generalizing acc with
  | nil => simp [collectIds]
  | cons x xs ih =>
    rw [show collectIds acc (x :: xs)
        = collectIds (if x ∈ acc then acc else acc ++ [x]) xs from rfl, ih]
    by_cases h : x ∈ acc
    · rw [if_pos h]
      constructor
      · rintro (h1 | h1)
        · exact Or.inl h1
        · exact Or.inr (List.mem_cons_of_mem _ h1)
      · rintro (h1 | h1)
        · exact Or.inl h1
        · rcases List.mem_cons.mp h1 with h2 | h2
          · exact Or.inl (h2 ▸ h)
          · exact Or.inr h2
    · rw [if_neg h]
      simp only [List.mem_append, List.mem_cons, List.mem_singleton]
      tauto

theorem nodup_collectIds (l acc : List Nat) (h : acc.Nodup) :
    (collectIds acc l).Nodup := by
  induction l generalizing acc with
  | nil => simpa [collectIds] using h
  | cons x xs ih =>
    rw [show collectIds acc (x :: xs)
        = collectIds (if x ∈ acc then acc else acc ++ [x]) xs from rfl]
    apply ih
    by_cases hx : x ∈ acc
    · simpa [hx] using h
    · simp [hx, List.nodup_append, h]

/-- A formatter used by concrete examples: renders only the Record's message. -/
def msgFormatter : Formatter := fun r => r.message

/-- A sink of the given identity whose writes always succeed. -/
def okSink (i : Nat) : Sink := ⟨i, fun _ => true⟩

/-- A sink of the given identity whose writes always fail with IoError. -/
def failSink (i : Nat) : Sink := ⟨i, fun _ => false⟩

/-- C2: a Logger.log call whose level is strictly below the Logger's min-level returns
immediately without building a Record, and no attached Sink receives a write for
that call. -/
theorem c2_below_min_level_fast_path (lg : Logger) (ts : Nat) (lv : Level)
    (msg : String) (callsite : List LogField)
    (h : lv.toNat < lg.minLevel.toNat) :
    (lg.log ts lv msg callsite).recordBuilt = none ∧
    (lg.log ts lv msg callsite).writes = [] := by
  constructor <;> simp [Logger.log, h]

/-- C2 witness: a debug call on an info-level Logger with one attached sink builds no
Record and performs no write. -/
theorem c2_below_min_level_fast_path_witness :
    Level.toNat Level.debug < Level.toNat Level.info ∧
    (((Logger.mk "app" Level.info [(okSink 1, msgFormatter)] []).log 0
        Level.debug "m" []).recordBuilt = none ∧
      ((Logger.mk "app" Level.info [(okSink 1, msgFormatter)] []).log 0
        Level.debug "m" []).writes = []) :=
  ⟨by decide,
   c2_below_min_level_fast_path
     (Logger.mk "app" Level.info [(okSink 1, msgFormatter)] [])
     0 Level.debug "m" [] (by decide)⟩

/-- C3: every constructed Record has unique field keys, and for a key supplied at the
call site, the call-site Field's value is the one that appears in the constructed
Record — context Fields are merged first and call-site Fields last, so the call-site
value wins on collision with the Logger's context. -/
theorem c3_callsite_wins_unique_keys (lg : Logger) (ts : Nat) (lv : Level)
    (msg : String) (callsite : List LogField) (r : Record) (f : LogField)
    (hr : (lg.log ts lv msg callsite).recordBuilt = some r)
    (hnd : (fieldKeys callsite).Nodup) (hf : f ∈ callsite) :
    (fieldKeys r.fields).Nodup ∧ findField r.fields f.key = some f.value := by
  by_cases h : lv.toNat < lg.minLevel.toNat
  · simp [Logger.log, h] at hr
  · have hr' : ({ timestamp := ts, level := lv, message := msg,
                   fields := mergeFields lg.context callsite } : Record) = r := by
      simpa [Logger.log, h] using hr
    subst hr'
    exact ⟨nodup_fieldKeys_mergeFields _ _,
      findField_mergeFields_callsite _ _ f hnd hf⟩

/-- C3 witness: with context env=prod and call-site env=test, the constructed Record
holds env=test with unique keys (the spec's own collision example). -/
theorem c3_callsite_wins_unique_keys_witness :
    ((Logger.mk "app" Level.trace []
        [LogField.mk "env" (Value.str "prod")]).log 0 Level.info "m"
        [LogField.mk "env" (Value.str "test")]).recordBuilt =
      some (Record.mk 0 Level.info "m" [LogField.mk "env" (Value.str "test")]) ∧
    (fieldKeys [LogField.mk "env" (Value.str "test")]).Nodup ∧
    ((fieldKeys (Record.mk 0 Level.info "m"
        [LogField.mk "env" (Value.str "test")]).fields).Nodup ∧
      findField (Record.mk 0 Level.info "m"
        [LogField.mk "env" (Value.str "test")]).fields "env" =
        some (Value.str "test")) :=
  ⟨rfl, by decide,
   c3_callsite_wins_unique_keys
     (Logger.mk "app" Level.trace [] [LogField.mk "env" (Value.str "prod")])
     0 Level.info "m" [LogField.mk "env" (Value.str "test")]
     (Record.mk 0 Level.info "m" [LogField.mk "env" (Value.str "test")])
     (LogField.mk "env" (Value.str "test"))
     rfl (by decide) (List.mem_cons_self _ _)⟩

/-- C4: with_context returns a child Logger that shares the parent's Sinks and binds
the new Field in its context, while the parent is left unchanged: a Record built by
a subsequent parent.log call contains no field with the new Field's key (the
parent's own context and the call site not supplying that key themselves). -/
theorem c4_with_context_leaves_parent_unchanged (lg : Logger) (f : LogField)
    (ts : Nat) (lv : Level) (msg : String) (callsite : List LogField) (r : Record)
    (hkc : f.key ∉ fieldKeys lg.context) (hks : f.key ∉ fieldKeys callsite)
    (hr : (lg.log ts lv msg callsite).recordBuilt = some r) :
    (lg.with_context f).sinks = lg.sinks ∧
    findField (lg.with_context f).context f.key = some f.value ∧
    findField r.fields f.key = none := by
  refine ⟨rfl, findField_insertField_self _ f, ?_⟩
  by_cases h : lv.toNat < lg.minLevel.toNat
  · simp [Logger.log, h] at hr
  · have hr' : ({ timestamp := ts, level := lv, message := msg,
                   fields := mergeFields lg.context callsite } : Record) = r := by
      simpa [Logger.log, h] using hr
    subst hr'
    exact findField_mergeFields_of_not_mem _ _ _ hkc hks

/-- C4 witness: after child = parent.with_context reqid=42, the child shares the
parent's sink list and binds reqid, while a parent.log record carries no reqid. -/
theorem c4_with_context_leaves_parent_unchanged_witness :
    "reqid" ∉ fieldKeys ([] : List LogField) ∧
    ((Logger.mk "app" Level.trace [(okSink 1, msgFormatter)] []).log 0 Level.info
        "m" []).recordBuilt = some (Record.mk 0 Level.info "m" []) ∧
    (((Logger.mk "app" Level.trace [(okSink 1, msgFormatter)] []).with_context
        (LogField.mk "reqid" (Value.str "42"))).sinks =
      (Logger.mk "app" Level.trace [(okSink 1, msgFormatter)] []).sinks ∧
     findField ((Logger.mk "app" Level.trace [(okSink 1, msgFormatter)]
        []).with_context (LogField.mk "reqid" (Value.str "42"))).context "reqid" =
       some (Value.str "42") ∧
     findField (Record.mk 0 Level.info "m" []).fields "reqid" = none) :=
  ⟨by decide, rfl,
   c4_with_context_leaves_parent_unchanged
     (Logger.mk "app" Level.trace [(okSink 1, msgFormatter)] [])
     (LogField.mk "reqid" (Value.str "42")) 0 Level.info "m" []
     (Record.mk 0 Level.info "m" []) (by decide) (by decide) rfl⟩

/-- C5: for a dispatched log call, every attached (Sink, Formatter) pair receives the
same Record's rendering in registration order regardless of which writes fail, and
the IoErrors are only recorded on the internal path — the caller-facing LogResult has
no error channel, so no IoError reaches the caller of log. -/
theorem c5_write_failure_isolation (lg : Logger) (ts : Nat) (lv : Level)
    (msg : String) (callsite : List LogField)
    (h : ¬ lv.toNat < lg.minLevel.toNat) :
    ∃ r : Record,
      (lg.log ts lv msg callsite).recordBuilt = some r ∧
      (lg.log ts lv msg callsite).writes =
        (lg.sinks.map fun p => (p.1.id, p.2 r)) ∧
      (lg.log ts lv msg callsite).ioErrorsRecorded =
        ((lg.sinks.filter fun p => ! p.1.writeOk (p.2 r)).map fun p => p.1.id) := by
  refine ⟨{ timestamp := ts, level := lv, message := msg,
            fields := mergeFields lg.context callsite }, ?_, ?_, ?_⟩ <;>
    simp [Logger.log, h, dispatch_foldl_writes, dispatch_foldl_errors]

/-- C5 witness: with a failing first sink and a healthy second sink, both sinks receive
the Record's rendering and only the failing sink's IoError is recorded. -/
theorem c5_write_failure_isolation_witness :
    ¬ Level.toNat Level.error < Level.toNat Level.info ∧
    ∃ r : Record,
      ((Logger.mk "app" Level.info [(failSink 1, msgFormatter),
          (okSink 2, msgFormatter)] []).log 0 Level.error "boom" []).recordBuilt =
        some r ∧
      ((Logger.mk "app" Level.info [(failSink 1, msgFormatter),
          (okSink 2, msgFormatter)] []).log 0 Level.error "boom" []).writes =
        (((Logger.mk "app" Level.info [(failSink 1, msgFormatter),
          (okSink 2, msgFormatter)] []).sinks).map fun p => (p.1.id, p.2 r)) ∧
      ((Logger.mk "app" Level.info [(failSink 1, msgFormatter),
          (okSink 2, msgFormatter)] []).log 0 Level.error "boom" []).ioErrorsRecorded =
        ((((Logger.mk "app" Level.info [(failSink 1, msgFormatter),
          (okSink 2, msgFormatter)] []).sinks).filter
            fun p => ! p.1.writeOk (p.2 r)).map fun p => p.1.id) :=
  ⟨by decide,
   c5_write_failure_isolation
     (Logger.mk "app" Level.info [(failSink 1, msgFormatter),
       (okSink 2, msgFormatter)] [])
     0 Level.error "boom" [] (by decide)⟩

/-- C6: on a Registry not yet shut down, shutdown() flushes and closes each Sink
identity reachable from any registered Logger exactly once (an identity is flushed
iff reachable and appears at most once, deduplicating Sinks shared across Loggers),
reports no error, and is idempotent: the second shutdown() performs no flush or
close and reports no error. -/
theorem c6_shutdown_once_idempotent (rg : Registry) (i : Nat)
    (h : rg.isShutdown = false) :
    (rg.shutdown).flushedIds.Nodup ∧
    (rg.shutdown).closedIds = (rg.shutdown).flushedIds ∧
    (rg.shutdown).flushedIds.count i ≤ 1 ∧
    (i ∈ (rg.shutdown).flushedIds ↔
      i ∈ (rg.loggers.map fun p => p.2.sinks.map fun q => q.1.id).flatten) ∧
    (rg.shutdown).reportedError = none ∧
    ((rg.shutdown).after.shutdown).flushedIds = [] ∧
    ((rg.shutdown).after.shutdown).closedIds = [] ∧
    ((rg.shutdown).after.shutdown).reportedError = none := by
  have hnd : rg.reachableSinkIds.Nodup := nodup_collectIds _ _ List.nodup_nil
  have hflush : (rg.shutdown).flushedIds = rg.reachableSinkIds := by
    simp [Registry.shutdown, h]
  refine ⟨?_, ?_, ?_, ?_, ?_, ?_, ?_, ?_⟩
  · rw [hflush]; exact hnd
  · simp [Registry.shutdown, h]
  · rw [hflush]; exact List.nodup_iff_count_le_one.mp hnd i
  · rw [hflush]
    simp [Registry.reachableSinkIds, mem_collectIds]
  · simp [Registry.shutdown, h]
  · simp [Registry.shutdown, h]
  · simp [Registry.shutdown, h]
  · simp [Registry.shutdown, h]

/-- A Registry with two Loggers that share the Sink of identity 7, used as a concrete
shutdown example. -/
def sampleRegistry : Registry :=
  Registry.mk
    [("a", Logger.mk "a" Level.info
        [(okSink 3, msgFormatter), (okSink 7, msgFormatter)] []),
     ("b", Logger.mk "b" Level.info [(okSink 7, msgFormatter)] [])]
    false

/-- C6 witness: two registered Loggers sharing the Sink of identity 7 — the first
shutdown flushes each reachable identity once with no error, and the second shutdown
flushes nothing and reports no error. -/
theorem c6_shutdown_once_idempotent_witness :
    sampleRegistry.isShutdown = false ∧
    ((sampleRegistry.shutdown).flushedIds.Nodup ∧
     (sampleRegistry.shutdown).closedIds = (sampleRegistry.shutdown).flushedIds ∧
     (sampleRegistry.shutdown).flushedIds.count 7 ≤ 1 ∧
     (7 ∈ (sampleRegistry.shutdown).flushedIds ↔
       7 ∈ (sampleRegistry.loggers.map fun p =>
         p.2.sinks.map fun q => q.1.id).flatten) ∧
     (sampleRegistry.shutdown).reportedError = none ∧
     ((sampleRegistry.shutdown).after.shutdown).flushedIds = [] ∧
     ((sampleRegistry.shutdown).after.shutdown).closedIds = [] ∧
     ((sampleRegistry.shutdown).after.shutdown).reportedError = none) :=
  ⟨rfl, c6_shutdown_once_idempotent sampleRegistry 7 rfl⟩

/-- C7: constructing a Field from a key and a value never fails except when the key is
the empty string, in which case it fails with InvalidFieldKey and yields nothing
else; for every non-empty key it succeeds with exactly that key/value pair. -/
theorem c7_field_construction_empty_key (k : String) (v : Value) :
    (k = "" → mkField k v = Except.error LogError.invalidFieldKey) ∧
    (k ≠ "" → mkField k v = Except.ok ⟨k, v⟩) := by
  constructor <;> intro h <;> simp [mkField, h]

/-- C7 witness: the empty key is rejected with InvalidFieldKey, and the non-empty key
user succeeds. -/
theorem c7_field_construction_empty_key_witness :
    mkField "" Value.null = Except.error LogError.invalidFieldKey ∧
    "user" ≠ "" ∧
    mkField "user" (Value.intVal 7) = Except.ok ⟨"user", Value.intVal 7⟩ :=
  ⟨(c7_field_construction_empty_key "" Value.null).1 rfl,
   by decide,
   (c7_field_construction_empty_key "user" (Value.intVal 7)).2 (by decide)⟩
